import Mathlib

/-! # rollouts-demo: the colour responder and the shutdown coordinator

A shallow embedding of `main.go`.

* `getColor` / `printColor` (lines 94-145) are embedded as functions returning the ordered
  list of externally visible effects of one request: header writes, the status line, the
  text written to the response, log lines, and the calls made to `json.Unmarshal`,
  `time.Sleep` and `rand.Intn`.
* The signal-handling goroutine of `main` (lines 59-77) is embedded as a step function over
  the values it receives at its three blocking points.

Conventions.

* Go strings and byte slices are modelled by `String`; request bodies are therefore UTF-8 text.
  `len(requestBody) > 0` is `requestBody.length > 0`: both say that the body is not empty.
* `float64` values coming out of `encoding/json` are finite; they are modelled by the rational
  number they denote (`ℚ`). Comparison with `0` and truncation are exact on those values.
* `int` / `int64` / `time.Duration` are `Int` with explicit wrap-around (`wrapInt64`) where the
  source multiplies; `int` is taken to be 64 bits wide.
* A log line is the message text; the timestamp prefix and the final newline added by the
  `log` package are left out.

The Go standard library is outside the repository. What the embedded code needs of it:

* `json.Unmarshal` is a parameter (`Env.unmarshal`); `rand.Intn(100)` is the argument `draw`;
  `io.ReadAll` is the argument `readAll`.
* `fmt.Fprintf(w, format)` without operands follows the loop `doPrintf` of package `fmt`:
  text is copied, `%%` gives `%`, and any other directive gives an error marker such as
  `%!v(MISSING)` or `%!(NOVERB)`.
* The verb `%f` prints six decimals of the exact value, rounded to nearest, ties to even.
* `time.NewTicker(d)` panics when `d ≤ 0`; `time.Sleep(d)` is recorded with its argument.
-/

namespace RolloutsDemo

/-! ## Constants -/

/-- The constant `defaultTerminationDelay` (line 25). -/
def defaultTerminationDelay : Int := 10

/-- The constant `color` (line 34). -/
def color : String := "purple"

/-- The constant `time.Second`, in nanoseconds. -/
def Second : Int := 1000000000

/-- The constants `http.StatusOK` and `http.StatusInternalServerError`. -/
def StatusOK : Nat := 200

/-- The constant `http.StatusInternalServerError`. -/
def StatusInternalServerError : Nat := 500

/-! ## Machine arithmetic -/

/-- Two's-complement wrap-around of an integer into the `int64` range. -/
def wrapInt64 (x : Int) : Int := (x + 2 ^ 63) % 2 ^ 64 - 2 ^ 63

/-- Truncation of a rational towards zero. -/
def truncQ (x : ℚ) : Int := Int.tdiv x.num x.den

/-- The conversion `int64(x)` of a finite `float64`: the value truncated towards zero when that
fits in `int64`; otherwise the result is implementation-dependent and is supplied by `ovf`. -/
def float64ToInt64 (ovf : ℚ → Int) (x : ℚ) : Int :=
  if -(2 : Int) ^ 63 ≤ truncQ x ∧ truncQ x < 2 ^ 63 then truncQ x else ovf x

/-- The expression `time.Duration(delayLength) * time.Second` (line 129): the conversion comes
first, the multiplication is an `int64` multiplication. -/
def sleepDuration (ovf : ℚ → Int) (delayLength : ℚ) : Int :=
  wrapInt64 (float64ToInt64 ovf delayLength * Second)

/-! ## Formatting -/

/-- Zero-padding of a decimal numeral on the left up to `width` digits. -/
def padZeros (width : Nat) (s : String) : String :=
  String.mk (List.replicate (width - s.length) '0') ++ s

/-- The verb `%f` applied to a finite `float64`: six digits after the point, the exact value
rounded to nearest, ties to even. -/
def formatF (x : ℚ) : String :=
  let a := x.num.natAbs * 1000000
  let k := a / x.den
  let r := a % x.den
  let n := if 2 * r > x.den ∨ (2 * r = x.den ∧ k % 2 = 1) then k + 1 else k
  (if x.num < 0 then "-" else "") ++ toString (n / 1000000) ++ "." ++
    padZeros 6 (toString (n % 1000000))

/-- The flag characters skipped after a `%` by `fmt`. -/
def isFlag (c : Char) : Bool :=
  c = '#' || c = '0' || c = '+' || c = '-' || c = ' '

/-- The helper `parsenum` of package `fmt` on the text `s`: whether a number was read, and the
text left. A number that grows beyond `10^6` makes it give up and consume everything. -/
def parsenum : Nat → Bool → List Char → Bool × List Char
  | _, isnum, [] => (isnum, [])
  | num, isnum, c :: cs =>
    if c.isDigit then
      if num > 1000000 then (false, [])
      else parsenum (num * 10 + (c.toNat - 48)) true cs
    else (isnum, c :: cs)

/-- The helper `parseArgNumber` of package `fmt` on a text that starts with `[`: the number of
characters to skip and whether a well-formed `[n]` was read. -/
def parseArgNumber (s : List Char) : Nat × Bool :=
  if s.length < 3 then (1, false)
  else
    let seg := (s.drop 1).takeWhile (fun c => c != ']')
    if seg.length + 1 < s.length then
      let r := parsenum 0 false seg
      (seg.length + 2, r.1 && r.2.isEmpty)
    else (1, false)

/-- The helper `argNumber` of package `fmt` when there are no operands: the text left, whether
an index `[n]` was read, and whether a `[` was met (every index is then out of range). -/
def argNumber (s : List Char) : List Char × Bool × Bool :=
  match s with
  | '[' :: _ =>
    let r := parseArgNumber s
    (s.drop r.1, r.2, true)
  | _ => (s, false, false)

/-- One directive of a format, `s` being the text after its `%`, when there are no operands:
the text produced and the format text left (`none` when the format ended inside it). As in
package `fmt` (`i+1 < end && format[i] == '.'`), a dot opens a precision only when a character
follows it; a dot that ends the format is taken as the verb. -/
def doVerb (s : List Char) : List Char × Option (List Char) :=
  let s1 := s.dropWhile isFlag
  let a1 := argNumber s1
  let bad1 := a1.2.2
  -- width
  let w : List Char × List Char × Bool × Bool :=
    match a1.1 with
    | '*' :: t => ("%!(BADWIDTH)".data, t, false, bad1)
    | s2 =>
      let r := parsenum 0 false s2
      ([], r.2, a1.2.1, bad1 || (a1.2.1 && r.1))
  -- precision
  let p : List Char × List Char × Bool × Bool :=
    match w.2.1 with
    | '.' :: c :: cs =>
      let a2 := argNumber (c :: cs)
      let bad2 := w.2.2.2 || w.2.2.1 || a2.2.2
      match a2.1 with
      | '*' :: u => (w.1 ++ "%!(BADPREC)".data, u, false, bad2)
      | t2 => (w.1, (parsenum 0 false t2).2, a2.2.1, bad2)
    | _ => w
  let a3 := if p.2.2.1 then (p.2.1, false, false) else argNumber p.2.1
  let bad := p.2.2.2 || a3.2.2
  match a3.1 with
  | [] => (p.1 ++ "%!(NOVERB)".data, none)
  | verb :: rest =>
    if verb = '%' then (p.1 ++ ['%'], some rest)
    else if bad then (p.1 ++ "%!".data ++ [verb] ++ "(BADINDEX)".data, some rest)
    else (p.1 ++ "%!".data ++ [verb] ++ "(MISSING)".data, some rest)

/-- The loop of `fmt.(*pp).doPrintf` when there are no operands. -/
def doPrintf : Nat → List Char → List Char
  | 0, _ => []
  | _ + 1, [] => []
  | fuel + 1, c :: s =>
    if c = '%' then
      match doVerb s with
      | (out, some rest) => out ++ doPrintf fuel rest
      | (out, none) => out
    else c :: doPrintf fuel s

/-- The text produced by `fmt.Fprintf(w, format)`, a call with a format and no operand
(lines 99 and 109). -/
def fprintf0 (format : String) : String :=
  String.mk (doPrintf format.length format.data)

/-! ## The colour responder -/

/-- The struct `colorParameters` (lines 88-92). -/
structure colorParameters where
  Color : String
  DelayLength : ℚ
  Return500Probability : Option Int
  deriving DecidableEq

/-- The zero value of `colorParameters` (`var colorParams colorParameters`, line 114). -/
def colorParameters.zero : colorParameters :=
  { Color := "", DelayLength := 0, Return500Probability := none }

/-- What the handler takes from outside the program: the behaviour of
`json.Unmarshal(body, &request)` with `request : []colorParameters`, and the result of
converting to `int64` a `float64` that does not fit. -/
structure Env where
  unmarshal : String → Except String (List colorParameters)
  float64Overflow : ℚ → Int

/-- One externally visible action of the handler. -/
inductive Effect where
  | setHeader (key value : String)
  | writeHeader (statusCode : Nat)
  | write (text : String)
  | log (line : String)
  | unmarshal (body : String)
  | sleep (d : Int)
  | intn (n : Nat)
  deriving DecidableEq

/-- The function `printColor` (lines 140-145). -/
def printColor (colorToPrint : String) (statusCode : Nat) : List Effect :=
  [ Effect.setHeader "Content-Type" "text/plain; charset=utf-8",
    Effect.setHeader "X-Content-Type-Options" "nosniff",
    Effect.writeHeader statusCode,
    Effect.write ("\"" ++ colorToPrint ++ "\"") ]

/-- The selection loop of `getColor` (lines 114-120). -/
def selectParams (request : List colorParameters) : colorParameters :=
  request.foldl (fun colorParams cp => if cp.Color = color then cp else colorParams)
    colorParameters.zero

/-- The local `delayLength` of `getColor` (lines 122-126). -/
def delayOf (colorParams : colorParameters) : ℚ :=
  if colorParams.DelayLength > 0 then colorParams.DelayLength else 0

/-- The delay block of `getColor` (lines 127-130): the text `delayLengthStr` and the call to
`time.Sleep`, if any. -/
def delayBlock (env : Env) (delayLength : ℚ) : String × List Effect :=
  if delayLength > 0 then
    (" (" ++ formatF delayLength ++ "s)",
      [Effect.sleep (sleepDuration env.float64Overflow delayLength)])
  else ("", [])

/-- The status block of `getColor` (lines 132-135), `draw` being what `rand.Intn(100)` returns
if it is called: the status code and the call to `rand.Intn`, if any. -/
def statusBlock (colorParams : colorParameters) (draw : Nat) : Nat × List Effect :=
  match colorParams.Return500Probability with
  | none => (StatusOK, [])
  | some p =>
    if p > 0 then
      (if p ≥ (draw : Int) then StatusInternalServerError else StatusOK, [Effect.intn 100])
    else (StatusOK, [])

/-- The part of `getColor` after the request has been decoded (lines 114-137). -/
def respond (env : Env) (request : List colorParameters) (draw : Nat) : List Effect :=
  let colorParams := selectParams request
  let d := delayBlock env (delayOf colorParams)
  let st := statusBlock colorParams draw
  d.2 ++ st.2 ++ printColor color st.1 ++
    [Effect.log (toString st.1 ++ " - " ++ color ++ d.1)]

/-- The handler `getColor` (lines 94-138). `readAll` is the result of `io.ReadAll(r.Body)`,
`draw` the value `rand.Intn(100)` returns if it is called. -/
def getColor (env : Env) (readAll : Except String String) (draw : Nat) : List Effect :=
  match readAll with
  | Except.error err =>
    [Effect.writeHeader 500, Effect.log err, Effect.write (fprintf0 err)]
  | Except.ok requestBody =>
    if requestBody.length > 0 ∧ requestBody ≠ "\"[]\"" then
      match env.unmarshal requestBody with
      | Except.error err =>
        [Effect.unmarshal requestBody, Effect.writeHeader 500,
          Effect.log (requestBody ++ ": " ++ err), Effect.write (fprintf0 err)]
      | Except.ok request => Effect.unmarshal requestBody :: respond env request draw
    else respond env [] draw

/-- The request body `body` passes the guard of line 104 and `json.Unmarshal` decodes it
into `request`: the case in which `getColor` works on a parsed request. -/
def Parsed (env : Env) (body : String) (request : List colorParameters) : Prop :=
  body.length > 0 ∧ body ≠ "\"[]\"" ∧ env.unmarshal body = Except.ok request

/-! ## Observations on a list of effects -/

/-- The status code sent: the argument of the first `WriteHeader`. -/
def statusOf : List Effect → Option Nat
  | [] => none
  | Effect.writeHeader c :: _ => some c
  | _ :: t => statusOf t

/-- The response body: everything written to the `ResponseWriter`. -/
def bodyOf : List Effect → String
  | [] => ""
  | Effect.write s :: t => s ++ bodyOf t
  | _ :: t => bodyOf t

/-- The durations passed to `time.Sleep`, in order. -/
def sleepsOf : List Effect → List Int
  | [] => []
  | Effect.sleep d :: t => d :: sleepsOf t
  | _ :: t => sleepsOf t

/-- The log lines, in order. -/
def logsOf : List Effect → List String
  | [] => []
  | Effect.log l :: t => l :: logsOf t
  | _ :: t => logsOf t

/-! ## Example requests

`encoding/json` is outside the repository; `exampleEnv` records what it returns on the handful
of request bodies the examples below use, and the result of `int64(x)` on amd64 for a value
that does not fit. -/

/-- The request body of the specification's example: a matching entry with `return500` 100. -/
def bodyReturn500 : String := "[\x7b\"color\":\"purple\",\"return500\":100\x7d]"

/-- A request body with a matching entry whose `delayLength` is one half. -/
def bodyHalfSecond : String := "[\x7b\"color\":\"purple\",\"delayLength\":0.5\x7d]"

/-- A request body with two matching entries and one entry of another colour. -/
def bodyTwoMatches : String :=
  "[\x7b\"color\":\"purple\",\"delayLength\":3\x7d,\x7b\"color\":\"purple\",\"return500\":40\x7d,\x7b\"color\":\"red\",\"delayLength\":7\x7d]"

/-- A request body without a matching entry. -/
def bodyOtherColor : String := "[\x7b\"color\":\"red\",\"delayLength\":2,\"return500\":100\x7d]"

/-- A request body with a matching entry whose `return500` is negative. -/
def bodyNegative : String := "[\x7b\"color\":\"purple\",\"return500\":-5\x7d]"

/-- The results of `json.Unmarshal` on the example bodies. Any body that is not listed is
answered like the truncated input `[`; no example uses such a body. -/
def exampleUnmarshal (body : String) : Except String (List colorParameters) :=
  if body = "[]" then Except.ok []
  else if body = bodyReturn500 then
    Except.ok [{ Color := "purple", DelayLength := 0, Return500Probability := some 100 }]
  else if body = bodyHalfSecond then
    Except.ok [{ Color := "purple", DelayLength := 1 / 2, Return500Probability := none }]
  else if body = bodyTwoMatches then
    Except.ok [{ Color := "purple", DelayLength := 3, Return500Probability := none },
               { Color := "purple", DelayLength := 0, Return500Probability := some 40 },
               { Color := "red", DelayLength := 7, Return500Probability := none }]
  else if body = bodyOtherColor then
    Except.ok [{ Color := "red", DelayLength := 2, Return500Probability := some 100 }]
  else if body = bodyNegative then
    Except.ok [{ Color := "purple", DelayLength := 0, Return500Probability := some (-5) }]
  else if body = "%" then
    Except.error "invalid character '%' looking for beginning of value"
  else if body = "\x7bnot valid\x7d" then
    Except.error "invalid character 'n' looking for beginning of object key string"
  else Except.error "unexpected end of JSON input"

/-- The example environment. -/
def exampleEnv : Env :=
  { unmarshal := exampleUnmarshal, float64Overflow := fun _ => -(2 : Int) ^ 63 }

/-! ## Properties of a list of effects -/

/-- The trace of a request without parameters. -/
def plainOK : List Effect :=
  [ Effect.setHeader "Content-Type" "text/plain; charset=utf-8",
    Effect.setHeader "X-Content-Type-Options" "nosniff",
    Effect.writeHeader 200,
    Effect.write "\"purple\"",
    Effect.log "200 - purple" ]

/-- The log line `line` has the form `<status> - <color>` followed by some suffix. -/
def IsStatusLine (status : Nat) (line : String) : Prop :=
  (toString status ++ " - " ++ color).data <+: line.data

instance (status : Nat) (line : String) : Decidable (IsStatusLine status line) := by
  unfold IsStatusLine; infer_instance

/-! ## The shutdown coordinator (lines 59-77) -/

/-- The signals `main` subscribes to (line 57). -/
inductive Signal where
  | SIGINT
  | SIGTERM
  deriving DecidableEq

/-- The text `%v` prints for a signal. -/
def Signal.text : Signal → String
  | Signal.SIGINT => "interrupt"
  | Signal.SIGTERM => "terminated"

/-- One action of the goroutine. -/
inductive Action where
  | setKeepAlivesEnabled (v : Bool)
  | log (line : String)
  | newTicker (d : Int)
  | tickerPanics (msg : String)
  | shutdown (timeout : Int)
  | fatal (line : String)
  | closeDone
  | cancel
  | tickerStop
  deriving DecidableEq

/-- Where the goroutine stands: blocked on `<-quit` (line 60), blocked in the `select`
(lines 65-69), inside `server.Shutdown` (line 73), returned, gone through `log.Fatalf`
(line 74), or stopped by the panic of `time.NewTicker` (line 63). -/
inductive Phase where
  | awaitSignal
  | draining
  | shuttingDown
  | returned
  | exited
  | panicked
  deriving DecidableEq

/-- The state of the goroutine: where it stands and what it has done so far. -/
structure Coordinator where
  phase : Phase
  trace : List Action
  deriving DecidableEq

/-- What the goroutine receives at a blocking point: a signal from `quit`, the tick of the
countdown from `delay.C`, or the result of `server.Shutdown`. -/
inductive Event where
  | signal (sig : Signal)
  | countdownElapsed
  | shutdownReturned (err : Option String)
  deriving DecidableEq

/-- The goroutine when it is started. -/
def Coordinator.init : Coordinator := { phase := Phase.awaitSignal, trace := [] }

/-- The expression `time.Duration(terminationDelay) * time.Second` (line 63). -/
def countdown (terminationDelay : Int) : Int := wrapInt64 (terminationDelay * Second)

/-- The expression `30*time.Second` (line 71). -/
def shutdownTimeout : Int := 30 * Second

/-- One step of the goroutine: from a blocking point, on the value received there, up to the
next blocking point or the end. `none` when the value cannot be received at that point. -/
def step (terminationDelay : Int) (s : Coordinator) (e : Event) : Option Coordinator :=
  match s.phase, e with
  | Phase.awaitSignal, Event.signal sig =>
    let t := s.trace ++
      [ Action.setKeepAlivesEnabled false,
        Action.log ("Signal " ++ sig.text ++ " caught. Shutting down in " ++
          toString terminationDelay ++ "s") ]
    if countdown terminationDelay ≤ 0 then
      some { phase := Phase.panicked,
             trace := t ++ [Action.tickerPanics "non-positive interval for NewTicker"] }
    else
      some { phase := Phase.draining,
             trace := t ++ [Action.newTicker (countdown terminationDelay)] }
  | Phase.draining, Event.signal _ =>
    some { phase := Phase.shuttingDown,
           trace := s.trace ++
             [ Action.log "Second signal caught. Shutting down NOW",
               Action.shutdown shutdownTimeout ] }
  | Phase.draining, Event.countdownElapsed =>
    some { phase := Phase.shuttingDown,
           trace := s.trace ++ [Action.shutdown shutdownTimeout] }
  | Phase.shuttingDown, Event.shutdownReturned none =>
    some { phase := Phase.returned,
           trace := s.trace ++ [Action.closeDone, Action.cancel, Action.tickerStop] }
  | Phase.shuttingDown, Event.shutdownReturned (some err) =>
    some { phase := Phase.exited,
           trace := s.trace ++
             [Action.fatal ("Could not gracefully shutdown the server: " ++ err)] }
  | _, _ => none

/-- The goroutine run on a sequence of received values. -/
def run (terminationDelay : Int) : Coordinator → List Event → Option Coordinator
  | s, [] => some s
  | s, e :: es =>
    match step terminationDelay s e with
    | some s' => run terminationDelay s' es
    | none => none

/-- Whether `server.Shutdown` has been invoked. -/
def shutdownInvoked (s : Coordinator) : Prop := ∃ t, Action.shutdown t ∈ s.trace

/-! ## Lemmas on the colour responder -/

theorem num_half : ((1 / 2 : ℚ)).num = 1 := by norm_num

theorem den_half : ((1 / 2 : ℚ)).den = 2 := by norm_num

theorem formatF_half : formatF (1 / 2) = "0.500000" := by
  unfold formatF; rw [num_half, den_half]; decide

theorem sleepDuration_half (ovf : ℚ → Int) : sleepDuration ovf (1 / 2) = 0 := by
  unfold sleepDuration float64ToInt64 truncQ
  rw [num_half, den_half, if_pos (by decide)]; decide

/-- Entries of another colour leave the accumulator of the selection loop unchanged. -/
theorem foldl_select_of_no_match (l : List colorParameters) (a : colorParameters)
    (h : ∀ cp ∈ l, cp.Color ≠ color) :
    l.foldl (fun colorParams cp => if cp.Color = color then cp else colorParams) a = a := by
  induction l generalizing a with
  | nil => rfl
  | cons x xs ih =>
    have hx : x.Color ≠ color := h x (List.mem_cons_self x xs)
    have hxs : ∀ cp ∈ xs, cp.Color ≠ color := fun cp hcp => h cp (List.mem_cons_of_mem x hcp)
    simp only [List.foldl_cons, if_neg hx]
    exact ih a hxs

theorem selectParams_of_no_match (request : List colorParameters)
    (h : ∀ cp ∈ request, cp.Color ≠ color) : selectParams request = colorParameters.zero :=
  foldl_select_of_no_match request _ h

theorem selectParams_last_match (pre post : List colorParameters) (cp : colorParameters)
    (hcp : cp.Color = color) (hpost : ∀ x ∈ post, x.Color ≠ color) :
    selectParams (pre ++ cp :: post) = cp := by
  unfold selectParams
  rw [List.foldl_append, List.foldl_cons, if_pos hcp]
  exact foldl_select_of_no_match post cp hpost

theorem selectParams_nil : selectParams [] = colorParameters.zero := rfl

theorem respond_of_zero (env : Env) (request : List colorParameters) (draw : Nat)
    (h : selectParams request = colorParameters.zero) : respond env request draw = plainOK := by
  unfold respond
  simp only [h]
  have hd : delayOf colorParameters.zero = 0 := by
    simp [delayOf, colorParameters.zero]
  have hs : statusBlock colorParameters.zero draw = (StatusOK, []) := rfl
  rw [hd, hs]
  simp only [delayBlock, gt_iff_lt, lt_self_iff_false, if_false]
  decide

/-- The trace of `getColor` on a body that it decodes. -/
theorem getColor_parsed (env : Env) (body : String) (request : List colorParameters) (draw : Nat)
    (h : Parsed env body request) :
    getColor env (Except.ok body) draw = Effect.unmarshal body :: respond env request draw := by
  obtain ⟨h1, h2, h3⟩ := h
  simp only [getColor, h3]
  rw [if_pos ⟨h1, h2⟩]

/-- The trace of `getColor` on a body that it does not decode. -/
theorem getColor_skipped (env : Env) (body : String) (draw : Nat)
    (h : ¬ (body.length > 0 ∧ body ≠ "\"[]\"")) :
    getColor env (Except.ok body) draw = respond env [] draw := by
  simp only [getColor]
  rw [if_neg h]

theorem delayBlock_effects (env : Env) (x : ℚ) :
    (delayBlock env x).2 = [] ∨ ∃ d, (delayBlock env x).2 = [Effect.sleep d] := by
  unfold delayBlock
  split
  · exact Or.inr ⟨_, rfl⟩
  · exact Or.inl rfl

theorem statusBlock_effects (cp : colorParameters) (draw : Nat) :
    (statusBlock cp draw).2 = [] ∨ (statusBlock cp draw).2 = [Effect.intn 100] := by
  unfold statusBlock
  split
  · exact Or.inl rfl
  · split
    · exact Or.inr rfl
    · exact Or.inl rfl

theorem statusOf_respond (env : Env) (request : List colorParameters) (draw : Nat) :
    statusOf (respond env request draw) = some (statusBlock (selectParams request) draw).1 := by
  rcases delayBlock_effects env (delayOf (selectParams request)) with hd | ⟨d, hd⟩ <;>
  rcases statusBlock_effects (selectParams request) draw with hs | hs <;>
  simp [respond, hd, hs, printColor, statusOf]

theorem bodyOf_respond (env : Env) (request : List colorParameters) (draw : Nat) :
    bodyOf (respond env request draw) = "\"purple\"" := by
  rcases delayBlock_effects env (delayOf (selectParams request)) with hd | ⟨d, hd⟩ <;>
  rcases statusBlock_effects (selectParams request) draw with hs | hs <;>
  simp [respond, hd, hs, printColor, bodyOf] <;> decide

theorem statusOf_getColor_parsed (env : Env) (body : String) (request : List colorParameters)
    (draw : Nat) (h : Parsed env body request) :
    statusOf (getColor env (Except.ok body) draw)
      = some (statusBlock (selectParams request) draw).1 := by
  rw [getColor_parsed env body request draw h]
  simp only [statusOf]
  exact statusOf_respond env request draw

theorem bodyOf_getColor_parsed (env : Env) (body : String) (request : List colorParameters)
    (draw : Nat) (h : Parsed env body request) :
    bodyOf (getColor env (Except.ok body) draw) = "\"purple\"" := by
  rw [getColor_parsed env body request draw h]
  simp only [bodyOf]
  exact bodyOf_respond env request draw

theorem sleepsOf_respond (env : Env) (request : List colorParameters) (draw : Nat) :
    sleepsOf (respond env request draw)
      = sleepsOf (delayBlock env (delayOf (selectParams request))).2 := by
  rcases delayBlock_effects env (delayOf (selectParams request)) with hd | ⟨d, hd⟩ <;>
  rcases statusBlock_effects (selectParams request) draw with hs | hs <;>
  simp [respond, hd, hs, printColor, sleepsOf]

theorem logsOf_respond (env : Env) (request : List colorParameters) (draw : Nat) :
    logsOf (respond env request draw)
      = [toString (statusBlock (selectParams request) draw).1 ++ " - " ++ color ++
          (delayBlock env (delayOf (selectParams request))).1] := by
  rcases delayBlock_effects env (delayOf (selectParams request)) with hd | ⟨d, hd⟩ <;>
  rcases statusBlock_effects (selectParams request) draw with hs | hs <;>
  simp [respond, hd, hs, printColor, logsOf]

/-- Every list with an entry satisfying `p` splits at the last such entry. -/
theorem exists_last_match {α : Type} (p : α → Prop) (l : List α) (h : ∃ x ∈ l, p x) :
    ∃ pre cp post, l = pre ++ cp :: post ∧ p cp ∧ ∀ x ∈ post, ¬ p x := by
  induction l with
  | nil => obtain ⟨x, hx, _⟩ := h; cases hx
  | cons a t ih =>
    by_cases ht : ∃ x ∈ t, p x
    · obtain ⟨pre, cp, post, hl, hcp, hpost⟩ := ih ht
      exact ⟨a :: pre, cp, post, by rw [hl, List.cons_append], hcp, hpost⟩
    · obtain ⟨x, hx, hpx⟩ := h
      rcases List.mem_cons.mp hx with hxa | hxt
      · subst hxa
        exact ⟨[], x, t, rfl, hpx, fun y hy hpy => ht ⟨y, hy, hpy⟩⟩
      · exact absurd ⟨x, hxt, hpx⟩ ht

/-- The status code chosen by the status block for `return500 = p` and a draw. -/
theorem statusBlock_some (cp : colorParameters) (p : Int) (draw : Nat)
    (hp : cp.Return500Probability = some p) :
    (statusBlock cp draw).1 = if 0 < p ∧ (draw : Int) ≤ p then 500 else 200 := by
  unfold statusBlock
  rw [hp]
  by_cases h0 : 0 < p
  · by_cases h1 : (draw : Int) ≤ p
    · simp [h0, h1, StatusInternalServerError]
    · simp [h0, h1, StatusOK]
  · simp [h0, StatusOK]

theorem delayOf_pos_iff (cp : colorParameters) : 0 < delayOf cp ↔ 0 < cp.DelayLength := by
  unfold delayOf
  split
  · rename_i h
    exact ⟨fun _ => h, fun _ => h⟩
  · rename_i h
    exact ⟨fun h0 => absurd h0 (lt_irrefl 0), fun h1 => absurd h1 h⟩

theorem delayOf_of_pos (cp : colorParameters) (h : 0 < cp.DelayLength) :
    delayOf cp = cp.DelayLength := by
  unfold delayOf
  rw [if_pos h]

/-- The delay block calls `time.Sleep` exactly when the selected `delayLength` is positive. -/
theorem sleepsOf_respond_ne_nil_iff (env : Env) (request : List colorParameters) (draw : Nat) :
    sleepsOf (respond env request draw) ≠ [] ↔ 0 < (selectParams request).DelayLength := by
  rw [sleepsOf_respond, ← delayOf_pos_iff]
  unfold delayBlock
  split
  · rename_i h
    simp only [sleepsOf]
    exact ⟨fun _ => h, fun _ => List.cons_ne_nil _ _⟩
  · rename_i h
    simp only [sleepsOf]
    exact ⟨fun h0 => absurd rfl h0, fun h1 => absurd h1 h⟩

/-- The trace of `getColor` when the body cannot be read (lines 96-101). -/
theorem getColor_read_failure (env : Env) (err : String) (draw : Nat) :
    getColor env (Except.error err) draw =
      [Effect.writeHeader 500, Effect.log err, Effect.write (fprintf0 err)] := rfl

/-- The trace of `getColor` when the body cannot be decoded (lines 106-111). -/
theorem getColor_decode_failure (env : Env) (body err : String) (draw : Nat)
    (h1 : body.length > 0) (h2 : body ≠ "\"[]\"")
    (h3 : env.unmarshal body = Except.error err) :
    getColor env (Except.ok body) draw =
      [ Effect.unmarshal body, Effect.writeHeader 500,
        Effect.log (body ++ ": " ++ err), Effect.write (fprintf0 err) ] := by
  simp only [getColor, h3]
  rw [if_pos ⟨h1, h2⟩]

/-! ## The claims on the colour responder -/

/-- C1: for every request body that decodes to a list in which no entry has the configured
colour (the empty list included) and for every draw, `getColor` answers with status 200 and the
body `"purple"` (quotes included), and never calls `time.Sleep`. -/
theorem getColor_no_matching_entry (env : Env) (body : String)
    (request : List colorParameters) (draw : Nat)
    (hparse : env.unmarshal body = Except.ok request)
    (hno : ∀ cp ∈ request, cp.Color ≠ color) :
    statusOf (getColor env (Except.ok body) draw) = some 200 ∧
    bodyOf (getColor env (Except.ok body) draw) = "\"purple\"" ∧
    sleepsOf (getColor env (Except.ok body) draw) = [] := by
  by_cases hg : body.length > 0 ∧ body ≠ "\"[]\""
  · rw [getColor_parsed env body request draw ⟨hg.1, hg.2, hparse⟩,
      respond_of_zero env request draw (selectParams_of_no_match request hno)]
    simp only [statusOf, bodyOf, sleepsOf]
    decide
  · rw [getColor_skipped env body draw hg, respond_of_zero env [] draw selectParams_nil]
    decide

theorem getColor_no_matching_entry_witness :
    (exampleEnv.unmarshal bodyOtherColor
        = Except.ok [{ Color := "red", DelayLength := 2, Return500Probability := some 100 }] ∧
      ∀ cp ∈ [({ Color := "red", DelayLength := 2, Return500Probability := some 100 } :
          colorParameters)], cp.Color ≠ color) ∧
    statusOf (getColor exampleEnv (Except.ok bodyOtherColor) 0) = some 200 ∧
    bodyOf (getColor exampleEnv (Except.ok bodyOtherColor) 0) = "\"purple\"" ∧
    sleepsOf (getColor exampleEnv (Except.ok bodyOtherColor) 0) = [] :=
  ⟨⟨rfl, by decide⟩,
    getColor_no_matching_entry exampleEnv bodyOtherColor
      [{ Color := "red", DelayLength := 2, Return500Probability := some 100 }] 0 rfl
      (by decide)⟩

/-- C2: for every parsed request whose selected entry has `return500 = 100`, every draw in
`[0, 100)` gives status 500 with body `"purple"`; for every parsed request whose selected entry
has `return500 = 0` or no `return500`, every draw gives status 200. -/
theorem getColor_return500_extremes (env : Env) (body : String)
    (request : List colorParameters) (draw : Nat) (h : Parsed env body request) :
    ((selectParams request).Return500Probability = some 100 → draw < 100 →
      statusOf (getColor env (Except.ok body) draw) = some 500 ∧
      bodyOf (getColor env (Except.ok body) draw) = "\"purple\"") ∧
    ((selectParams request).Return500Probability = some 0 ∨
        (selectParams request).Return500Probability = none →
      statusOf (getColor env (Except.ok body) draw) = some 200) := by
  rw [statusOf_getColor_parsed env body request draw h,
    bodyOf_getColor_parsed env body request draw h]
  refine ⟨fun hp hdraw => ⟨?_, rfl⟩, fun hp => ?_⟩
  · have h1 : (100 : Int) ≥ (draw : Int) := by omega
    simp [statusBlock, hp, h1, StatusInternalServerError]
  · rcases hp with hp | hp <;> simp [statusBlock, hp, StatusOK]

theorem getColor_return500_extremes_witness :
    Parsed exampleEnv bodyReturn500
      [{ Color := "purple", DelayLength := 0, Return500Probability := some 100 }] ∧
    Parsed exampleEnv bodyHalfSecond
      [{ Color := "purple", DelayLength := 1 / 2, Return500Probability := none }] ∧
    statusOf (getColor exampleEnv (Except.ok bodyReturn500) 99) = some 500 ∧
    bodyOf (getColor exampleEnv (Except.ok bodyReturn500) 99) = "\"purple\"" ∧
    statusOf (getColor exampleEnv (Except.ok bodyHalfSecond) 0) = some 200 :=
  ⟨⟨by decide, by decide, rfl⟩, ⟨by decide, by decide, rfl⟩,
    ((getColor_return500_extremes exampleEnv bodyReturn500 _ 99
      ⟨by decide, by decide, rfl⟩).1 rfl (by decide)).1,
    ((getColor_return500_extremes exampleEnv bodyReturn500 _ 99
      ⟨by decide, by decide, rfl⟩).1 rfl (by decide)).2,
    (getColor_return500_extremes exampleEnv bodyHalfSecond _ 0
      ⟨by decide, by decide, rfl⟩).2 (Or.inr rfl)⟩

/-- C3, at the input where the code departs from it: for every parsed request whose selected
entry has `delayLength = 0.5`, the duration `getColor` passes to `time.Sleep` is zero, while
the log line reports a delay of `0.500000s`. -/
theorem getColor_half_second_sleeps_zero (env : Env) (body : String)
    (request : List colorParameters) (draw : Nat) (h : Parsed env body request)
    (hd : (selectParams request).DelayLength = 1 / 2) :
    sleepsOf (getColor env (Except.ok body) draw) = [0] ∧
    logsOf (getColor env (Except.ok body) draw)
      = [toString (statusBlock (selectParams request) draw).1 ++ " - " ++ color ++
          " (0.500000s)"] := by
  have hdelay : delayOf (selectParams request) = 1 / 2 := by
    unfold delayOf; rw [hd]; norm_num
  have hblock : delayBlock env (1 / 2) = (" (0.500000s)", [Effect.sleep 0]) := by
    unfold delayBlock
    rw [if_pos (by norm_num), formatF_half, sleepDuration_half]
    rfl
  rw [getColor_parsed env body request draw h]
  simp only [sleepsOf, logsOf]
  rw [sleepsOf_respond, logsOf_respond, hdelay, hblock]
  exact ⟨rfl, rfl⟩

theorem getColor_half_second_sleeps_zero_witness :
    (Parsed exampleEnv bodyHalfSecond
        [{ Color := "purple", DelayLength := 1 / 2, Return500Probability := none }] ∧
      (selectParams
        [{ Color := "purple", DelayLength := 1 / 2, Return500Probability := none }]).DelayLength
        = 1 / 2) ∧
    sleepsOf (getColor exampleEnv (Except.ok bodyHalfSecond) 0) = [0] ∧
    logsOf (getColor exampleEnv (Except.ok bodyHalfSecond) 0) = ["200 - purple (0.500000s)"] :=
  ⟨⟨⟨by decide, by decide, rfl⟩, rfl⟩,
    getColor_half_second_sleeps_zero exampleEnv bodyHalfSecond
      [{ Color := "purple", DelayLength := 1 / 2, Return500Probability := none }] 0
      ⟨by decide, by decide, rfl⟩ rfl⟩

/-- C4, at the input where the code departs from it: when the request body is `%` and the
decoder fails with the message `invalid character '%' looking for beginning of value`,
`getColor` answers 500 without selection, sleep or draw, but the body it writes is the message
run through `fmt.Fprintf` as a format, which is not the message. -/
theorem getColor_percent_body_not_message (env : Env) (draw : Nat)
    (h : env.unmarshal "%"
      = Except.error "invalid character '%' looking for beginning of value") :
    getColor env (Except.ok "%") draw =
      [ Effect.unmarshal "%", Effect.writeHeader 500,
        Effect.log "%: invalid character '%' looking for beginning of value",
        Effect.write "invalid character '%!'(MISSING) looking for beginning of value" ] ∧
    bodyOf (getColor env (Except.ok "%") draw)
      ≠ "invalid character '%' looking for beginning of value" := by
  have ht : getColor env (Except.ok "%") draw =
      [ Effect.unmarshal "%", Effect.writeHeader 500,
        Effect.log "%: invalid character '%' looking for beginning of value",
        Effect.write "invalid character '%!'(MISSING) looking for beginning of value" ] := by
    simp only [getColor, h]
    rw [if_pos (by decide)]
    decide
  rw [ht]
  exact ⟨rfl, by decide⟩

theorem getColor_percent_body_not_message_witness :
    exampleEnv.unmarshal "%"
      = Except.error "invalid character '%' looking for beginning of value" ∧
    getColor exampleEnv (Except.ok "%") 0 =
      [ Effect.unmarshal "%", Effect.writeHeader 500,
        Effect.log "%: invalid character '%' looking for beginning of value",
        Effect.write "invalid character '%!'(MISSING) looking for beginning of value" ] ∧
    bodyOf (getColor exampleEnv (Except.ok "%") 0)
      ≠ "invalid character '%' looking for beginning of value" :=
  ⟨rfl, getColor_percent_body_not_message exampleEnv 0 rfl⟩

/-- C5: `getColor` treats the empty body and the body `"[]"` (quotes included) alike: for every
decoder and every draw both produce the same effects, namely no call to `json.Unmarshal`, no
sleep, no draw, status 200, the body `"purple"` and the log line `200 - purple`. -/
theorem getColor_empty_body_eq_quoted_brackets (env : Env) (draw : Nat) :
    getColor env (Except.ok "") draw = getColor env (Except.ok "\"[]\"") draw ∧
    getColor env (Except.ok "") draw =
      [ Effect.setHeader "Content-Type" "text/plain; charset=utf-8",
        Effect.setHeader "X-Content-Type-Options" "nosniff",
        Effect.writeHeader 200,
        Effect.write "\"purple\"",
        Effect.log "200 - purple" ] := by
  have h1 : getColor env (Except.ok "") draw = plainOK := by
    rw [getColor_skipped env "" draw (by decide), respond_of_zero env [] draw selectParams_nil]
  have h2 : getColor env (Except.ok "\"[]\"") draw = plainOK := by
    rw [getColor_skipped env "\"[]\"" draw (by decide),
      respond_of_zero env [] draw selectParams_nil]
  exact ⟨h1.trans h2.symm, h1⟩

/-- C6: every parsed list with at least one entry of the configured colour splits as
`pre ++ cp :: post`, where `cp` is its last entry of that colour; the selection loop ends on
`cp`, and the effects of `getColor` (the sleep, the draw, the status, the log line) are computed
from `cp` alone: the entries of `pre` and `post` do not occur in them. -/
theorem getColor_last_match_wins (env : Env) (body : String)
    (request : List colorParameters) (draw : Nat)
    (h : Parsed env body request) (hmatch : ∃ x ∈ request, x.Color = color) :
    ∃ pre cp post, request = pre ++ cp :: post ∧ cp.Color = color ∧
      (∀ x ∈ post, x.Color ≠ color) ∧
      selectParams request = cp ∧
      getColor env (Except.ok body) draw =
        Effect.unmarshal body ::
          ((delayBlock env (delayOf cp)).2 ++ (statusBlock cp draw).2 ++
            printColor color (statusBlock cp draw).1 ++
            [Effect.log (toString (statusBlock cp draw).1 ++ " - " ++ color ++
              (delayBlock env (delayOf cp)).1)]) := by
  obtain ⟨pre, cp, post, hl, hcp, hpost⟩ :=
    exists_last_match (fun x : colorParameters => x.Color = color) request hmatch
  have hsel : selectParams request = cp := by
    rw [hl]; exact selectParams_last_match pre post cp hcp hpost
  refine ⟨pre, cp, post, hl, hcp, hpost, hsel, ?_⟩
  rw [getColor_parsed env body _ draw h]
  simp only [respond, hsel]

theorem getColor_last_match_wins_witness :
    (Parsed exampleEnv bodyTwoMatches
        [ { Color := "purple", DelayLength := 3, Return500Probability := none },
          { Color := "purple", DelayLength := 0, Return500Probability := some 40 },
          { Color := "red", DelayLength := 7, Return500Probability := none } ] ∧
      ∃ x ∈ [ ({ Color := "purple", DelayLength := 3, Return500Probability := none } :
                colorParameters),
              { Color := "purple", DelayLength := 0, Return500Probability := some 40 },
              { Color := "red", DelayLength := 7, Return500Probability := none } ],
        x.Color = color) ∧
    ∃ pre cp post,
      [ ({ Color := "purple", DelayLength := 3, Return500Probability := none } :
          colorParameters),
        { Color := "purple", DelayLength := 0, Return500Probability := some 40 },
        { Color := "red", DelayLength := 7, Return500Probability := none } ]
        = pre ++ cp :: post ∧ cp.Color = color ∧
      (∀ x ∈ post, x.Color ≠ color) ∧
      selectParams
        [ { Color := "purple", DelayLength := 3, Return500Probability := none },
          { Color := "purple", DelayLength := 0, Return500Probability := some 40 },
          { Color := "red", DelayLength := 7, Return500Probability := none } ] = cp ∧
      getColor exampleEnv (Except.ok bodyTwoMatches) 40 =
        Effect.unmarshal bodyTwoMatches ::
          ((delayBlock exampleEnv (delayOf cp)).2 ++ (statusBlock cp 40).2 ++
            printColor color (statusBlock cp 40).1 ++
            [Effect.log (toString (statusBlock cp 40).1 ++ " - " ++ color ++
              (delayBlock exampleEnv (delayOf cp)).1)]) :=
  ⟨⟨⟨by decide, by decide, rfl⟩, ⟨_, List.mem_cons_self _ _, rfl⟩⟩,
    getColor_last_match_wins exampleEnv bodyTwoMatches _ 40
      ⟨by decide, by decide, rfl⟩ ⟨_, List.mem_cons_self _ _, rfl⟩⟩

/-- The effects of the request with two matching entries: those of the second one. -/
theorem getColor_two_matches :
    getColor exampleEnv (Except.ok bodyTwoMatches) 40 =
      [ Effect.unmarshal bodyTwoMatches, Effect.intn 100,
        Effect.setHeader "Content-Type" "text/plain; charset=utf-8",
        Effect.setHeader "X-Content-Type-Options" "nosniff",
        Effect.writeHeader 500, Effect.write "\"purple\"", Effect.log "500 - purple" ] := by
  rw [getColor_parsed exampleEnv bodyTwoMatches _ 40 ⟨by decide, by decide, rfl⟩]
  have hsel : selectParams
      [ { Color := "purple", DelayLength := 3, Return500Probability := none },
        { Color := "purple", DelayLength := 0, Return500Probability := some 40 },
        { Color := "red", DelayLength := 7, Return500Probability := none } ]
      = { Color := "purple", DelayLength := 0, Return500Probability := some 40 } := rfl
  simp only [respond, hsel]
  simp [delayBlock, delayOf, statusBlock, printColor, StatusInternalServerError, color]
  decide

/-- C8 fails on the two error paths: when the body cannot be read, and when it cannot be
decoded, `getColor` sends status 500 and its only log line is the error text (preceded by the
body in the second case), written before the response body; no log line has the form
`500 - purple`. -/
theorem getColor_error_paths_log_error_text :
    getColor exampleEnv (Except.error "unexpected EOF") 0 =
      [ Effect.writeHeader 500, Effect.log "unexpected EOF", Effect.write "unexpected EOF" ] ∧
    (∀ line ∈ logsOf (getColor exampleEnv (Except.error "unexpected EOF") 0),
      ¬ IsStatusLine 500 line) ∧
    getColor exampleEnv (Except.ok "\x7bnot valid\x7d") 0 =
      [ Effect.unmarshal "\x7bnot valid\x7d", Effect.writeHeader 500,
        Effect.log
          "\x7bnot valid\x7d: invalid character 'n' looking for beginning of object key string",
        Effect.write "invalid character 'n' looking for beginning of object key string" ] ∧
    (∀ line ∈ logsOf (getColor exampleEnv (Except.ok "\x7bnot valid\x7d") 0),
      ¬ IsStatusLine 500 line) := by
  refine ⟨by decide, by decide, by decide, by decide⟩

/-- C8, amended: for every request whose body is read and is either left undecoded (empty or
`"[]"`) or decoded successfully, the last effect of `getColor` is the log line
`<status> - <color><suffix>`, where `<status>` is the status code sent; the response body has
been written before it and no other line is logged; `time.Sleep` is called exactly when the
selected `delayLength` is positive; the suffix is empty when `time.Sleep` was not called and
` (<delayLength>s)`, with `delayLength` printed by `%f`, when it was. For every request whose
body cannot be read, status 500 is sent and the only log line is the error text; for every
request whose body cannot be decoded, status 500 is sent and the only log line is the body,
`: ` and the error text; on both error paths `time.Sleep` is not called. -/
theorem getColor_logs_status_line (env : Env) (draw : Nat) :
    (∀ body request,
      Parsed env body request ∨ (¬ (body.length > 0 ∧ body ≠ "\"[]\"") ∧ request = []) →
      ∃ pre status suffix,
        getColor env (Except.ok body) draw
          = pre ++ [Effect.log (toString status ++ " - " ++ color ++ suffix)] ∧
        statusOf (getColor env (Except.ok body) draw) = some status ∧
        Effect.write "\"purple\"" ∈ pre ∧ logsOf pre = [] ∧
        (sleepsOf (getColor env (Except.ok body) draw) ≠ [] ↔
          0 < (selectParams request).DelayLength) ∧
        (sleepsOf (getColor env (Except.ok body) draw) = [] → suffix = "") ∧
        (sleepsOf (getColor env (Except.ok body) draw) ≠ [] →
          suffix = " (" ++ formatF (selectParams request).DelayLength ++ "s)")) ∧
    (∀ err,
      statusOf (getColor env (Except.error err) draw) = some 500 ∧
      logsOf (getColor env (Except.error err) draw) = [err] ∧
      sleepsOf (getColor env (Except.error err) draw) = []) ∧
    (∀ body err, body.length > 0 → body ≠ "\"[]\"" →
      env.unmarshal body = Except.error err →
      statusOf (getColor env (Except.ok body) draw) = some 500 ∧
      logsOf (getColor env (Except.ok body) draw) = [body ++ ": " ++ err] ∧
      sleepsOf (getColor env (Except.ok body) draw) = []) := by
  refine ⟨fun body request h => ?_, fun err => ?_, fun body err h1 h2 h3 => ?_⟩
  · have key : ∀ front : List Effect, front = [] ∨ front = [Effect.unmarshal body] →
        getColor env (Except.ok body) draw = front ++ respond env request draw →
        ∃ pre status suffix,
          getColor env (Except.ok body) draw
            = pre ++ [Effect.log (toString status ++ " - " ++ color ++ suffix)] ∧
          statusOf (getColor env (Except.ok body) draw) = some status ∧
          Effect.write "\"purple\"" ∈ pre ∧ logsOf pre = [] ∧
          (sleepsOf (getColor env (Except.ok body) draw) ≠ [] ↔
            0 < (selectParams request).DelayLength) ∧
          (sleepsOf (getColor env (Except.ok body) draw) = [] → suffix = "") ∧
          (sleepsOf (getColor env (Except.ok body) draw) ≠ [] →
            suffix = " (" ++ formatF (selectParams request).DelayLength ++ "s)") := by
      intro front hfront hg
      have hsleeps : sleepsOf (getColor env (Except.ok body) draw)
          = sleepsOf (respond env request draw) := by
        rw [hg]
        rcases hfront with hf | hf <;> rw [hf] <;> rfl
      have hiff := sleepsOf_respond_ne_nil_iff env request draw
      refine ⟨front ++ ((delayBlock env (delayOf (selectParams request))).2 ++
          (statusBlock (selectParams request) draw).2 ++
          printColor color (statusBlock (selectParams request) draw).1),
        (statusBlock (selectParams request) draw).1,
        (delayBlock env (delayOf (selectParams request))).1, ?_, ?_, ?_, ?_, ?_, ?_, ?_⟩
      · rw [hg]; simp [respond]
      · rw [hg]
        rcases hfront with hf | hf <;> rw [hf] <;>
          simp only [List.nil_append, List.cons_append, statusOf] <;>
          exact statusOf_respond env request draw
      · simp [printColor, color]
      · rcases delayBlock_effects env (delayOf (selectParams request)) with hd | ⟨d, hd⟩ <;>
        rcases statusBlock_effects (selectParams request) draw with hs | hs <;>
        rcases hfront with hf | hf <;>
        simp [hf, hd, hs, printColor, logsOf]
      · rw [hsleeps]; exact hiff
      · intro hsl
        rw [hsleeps] at hsl
        have hnot : ¬ 0 < delayOf (selectParams request) := by
          rw [delayOf_pos_iff]
          intro hpos
          exact (hiff.mpr hpos) hsl
        unfold delayBlock
        rw [if_neg hnot]
      · intro hsl
        rw [hsleeps] at hsl
        have hpos : 0 < (selectParams request).DelayLength := hiff.mp hsl
        have hpos2 : 0 < delayOf (selectParams request) := (delayOf_pos_iff _).mpr hpos
        unfold delayBlock
        rw [if_pos hpos2, delayOf_of_pos _ hpos]
    rcases h with h | ⟨h, hreq⟩
    · exact key [Effect.unmarshal body] (Or.inr rfl) (getColor_parsed env body request draw h)
    · subst hreq
      exact key [] (Or.inl rfl) (getColor_skipped env body draw h)
  · rw [getColor_read_failure]
    exact ⟨rfl, rfl, rfl⟩
  · rw [getColor_decode_failure env body err draw h1 h2 h3]
    exact ⟨rfl, rfl, rfl⟩

theorem getColor_logs_status_line_witness :
    (Parsed exampleEnv bodyHalfSecond
        [{ Color := "purple", DelayLength := 1 / 2, Return500Probability := none }] ∧
      exampleEnv.unmarshal "\x7bnot valid\x7d"
        = Except.error "invalid character 'n' looking for beginning of object key string") ∧
    (∃ pre status suffix,
      getColor exampleEnv (Except.ok bodyHalfSecond) 0
        = pre ++ [Effect.log (toString status ++ " - " ++ color ++ suffix)] ∧
      statusOf (getColor exampleEnv (Except.ok bodyHalfSecond) 0) = some status ∧
      Effect.write "\"purple\"" ∈ pre ∧ logsOf pre = [] ∧
      (sleepsOf (getColor exampleEnv (Except.ok bodyHalfSecond) 0) ≠ [] ↔
        0 < (selectParams
          [{ Color := "purple", DelayLength := 1 / 2, Return500Probability := none }]
          ).DelayLength) ∧
      (sleepsOf (getColor exampleEnv (Except.ok bodyHalfSecond) 0) = [] → suffix = "") ∧
      (sleepsOf (getColor exampleEnv (Except.ok bodyHalfSecond) 0) ≠ [] →
        suffix = " (" ++ formatF (selectParams
          [{ Color := "purple", DelayLength := 1 / 2, Return500Probability := none }]).DelayLength
          ++ "s)")) ∧
    (statusOf (getColor exampleEnv (Except.error "unexpected EOF") 0) = some 500 ∧
      logsOf (getColor exampleEnv (Except.error "unexpected EOF") 0) = ["unexpected EOF"] ∧
      sleepsOf (getColor exampleEnv (Except.error "unexpected EOF") 0) = []) ∧
    (statusOf (getColor exampleEnv (Except.ok "\x7bnot valid\x7d") 0) = some 500 ∧
      logsOf (getColor exampleEnv (Except.ok "\x7bnot valid\x7d") 0)
        = ["\x7bnot valid\x7d" ++ ": " ++
            "invalid character 'n' looking for beginning of object key string"] ∧
      sleepsOf (getColor exampleEnv (Except.ok "\x7bnot valid\x7d") 0) = []) :=
  ⟨⟨⟨by decide, by decide, rfl⟩, rfl⟩,
    (getColor_logs_status_line exampleEnv 0).1 bodyHalfSecond
      [{ Color := "purple", DelayLength := 1 / 2, Return500Probability := none }]
      (Or.inl ⟨by decide, by decide, rfl⟩),
    (getColor_logs_status_line exampleEnv 0).2.1 "unexpected EOF",
    (getColor_logs_status_line exampleEnv 0).2.2 "\x7bnot valid\x7d"
      "invalid character 'n' looking for beginning of object key string"
      (by decide) (by decide) rfl⟩

/-- C9: for every parsed request whose selected entry has `return500 = p`: when
`1 ≤ p ≤ 99`, exactly `p + 1` of the 100 draws in `[0, 100)` give status 500 and the other
`99 - p` give 200; when `p ≥ 99` every draw gives 500; when `p ≤ 0` every draw gives 200.
The value `p` is any integer: nothing restricts it to `[0, 100]`. -/
theorem getColor_return500_counts (env : Env) (body : String)
    (request : List colorParameters) (p : Int) (h : Parsed env body request)
    (hp : (selectParams request).Return500Probability = some p) :
    (1 ≤ p → p ≤ 99 →
      (((Finset.range 100).filter
          (fun draw => statusOf (getColor env (Except.ok body) draw) = some 500)).card : Int)
        = p + 1 ∧
      (((Finset.range 100).filter
          (fun draw => statusOf (getColor env (Except.ok body) draw) = some 200)).card : Int)
        = 99 - p) ∧
    (99 ≤ p → ∀ draw, draw < 100 →
      statusOf (getColor env (Except.ok body) draw) = some 500) ∧
    (p ≤ 0 → ∀ draw, statusOf (getColor env (Except.ok body) draw) = some 200) := by
  have hst : ∀ draw, statusOf (getColor env (Except.ok body) draw)
      = some (if 0 < p ∧ (draw : Int) ≤ p then 500 else 200) := by
    intro draw
    rw [statusOf_getColor_parsed env body request draw h, statusBlock_some _ p draw hp]
  refine ⟨fun h1 h99 => ?_, fun h99 draw hdraw => ?_, fun h0 draw => ?_⟩
  · obtain ⟨n, rfl⟩ : ∃ n : Nat, p = (n : Int) := ⟨p.toNat, by omega⟩
    have e500 : (Finset.range 100).filter
        (fun draw => statusOf (getColor env (Except.ok body) draw) = some 500)
        = Finset.range (n + 1) := by
      ext draw
      simp only [Finset.mem_filter, Finset.mem_range, hst]
      constructor
      · rintro ⟨_, hd⟩
        by_contra hcon
        have : ¬ (0 < (n : Int) ∧ (draw : Int) ≤ (n : Int)) := by omega
        rw [if_neg this] at hd
        simp at hd
      · intro hd
        have : 0 < (n : Int) ∧ (draw : Int) ≤ (n : Int) := by omega
        rw [if_pos this]
        exact ⟨by omega, rfl⟩
    have e200 : (Finset.range 100).filter
        (fun draw => statusOf (getColor env (Except.ok body) draw) = some 200)
        = Finset.range 100 \ Finset.range (n + 1) := by
      ext draw
      simp only [Finset.mem_filter, Finset.mem_range, Finset.mem_sdiff, hst]
      constructor
      · rintro ⟨hlt, hd⟩
        refine ⟨hlt, fun hcon => ?_⟩
        have : 0 < (n : Int) ∧ (draw : Int) ≤ (n : Int) := by omega
        rw [if_pos this] at hd
        simp at hd
      · rintro ⟨hlt, hd⟩
        have : ¬ (0 < (n : Int) ∧ (draw : Int) ≤ (n : Int)) := by omega
        rw [if_neg this]
        exact ⟨hlt, rfl⟩
    have hsub : Finset.range (n + 1) ⊆ Finset.range 100 := by
      intro x hx
      simp only [Finset.mem_range] at hx ⊢
      omega
    rw [e500, e200, Finset.card_sdiff hsub, Finset.card_range, Finset.card_range]
    constructor
    · push_cast; ring
    · omega
  · rw [hst]
    have : 0 < p ∧ (draw : Int) ≤ p := by omega
    rw [if_pos this]
  · rw [hst]
    have : ¬ (0 < p ∧ (draw : Int) ≤ p) := by omega
    rw [if_neg this]

theorem getColor_return500_counts_witness :
    (Parsed exampleEnv bodyTwoMatches
        [ { Color := "purple", DelayLength := 3, Return500Probability := none },
          { Color := "purple", DelayLength := 0, Return500Probability := some 40 },
          { Color := "red", DelayLength := 7, Return500Probability := none } ] ∧
      (selectParams
        [ { Color := "purple", DelayLength := 3, Return500Probability := none },
          { Color := "purple", DelayLength := 0, Return500Probability := some 40 },
          { Color := "red", DelayLength := 7, Return500Probability := none } ]
        ).Return500Probability = some 40) ∧
    ((((Finset.range 100).filter (fun draw =>
        statusOf (getColor exampleEnv (Except.ok bodyTwoMatches) draw) = some 500)).card : Int)
        = 40 + 1 ∧
      (((Finset.range 100).filter (fun draw =>
        statusOf (getColor exampleEnv (Except.ok bodyTwoMatches) draw) = some 200)).card : Int)
        = 99 - 40) ∧
    (∀ draw, draw < 100 →
      statusOf (getColor exampleEnv (Except.ok bodyReturn500) draw) = some 500) ∧
    (∀ draw, statusOf (getColor exampleEnv (Except.ok bodyNegative) draw) = some 200) :=
  ⟨⟨⟨by decide, by decide, rfl⟩, rfl⟩,
    (getColor_return500_counts exampleEnv bodyTwoMatches _ 40
      ⟨by decide, by decide, rfl⟩ rfl).1 (by decide) (by decide),
    (getColor_return500_counts exampleEnv bodyReturn500
      [{ Color := "purple", DelayLength := 0, Return500Probability := some 100 }] 100
      ⟨by decide, by decide, rfl⟩ rfl).2.1 (by decide),
    (getColor_return500_counts exampleEnv bodyNegative
      [{ Color := "purple", DelayLength := 0, Return500Probability := some (-5) }] (-5)
      ⟨by decide, by decide, rfl⟩ rfl).2.2 (by decide)⟩

/-! ## Further facts on the library models -/

/-- Formats with directives and no operand: what package `fmt` writes for them. -/
theorem fprintf0_directives :
    fprintf0 "100%" = "100%!(NOVERB)" ∧
    fprintf0 "a%%b%d" = "a%b%!d(MISSING)" ∧
    fprintf0 "%." = "%!.(MISSING)" ∧
    fprintf0 "%5." = "%!.(MISSING)" ∧
    fprintf0 "%[1]." = "%!.(BADINDEX)" ∧
    fprintf0 "%.2f|%.*f|%*d" = "%!f(MISSING)|%!(BADPREC)%!f(MISSING)|%!(BADWIDTH)%!d(MISSING)" ∧
    fprintf0 "%[1]d|%[x]d|%12345678d" = "%!d(BADINDEX)|%!d(BADINDEX)|%!(NOVERB)" := by
  refine ⟨by decide, by decide, by decide, by decide, by decide, by decide, by decide⟩

/-- A format without `%` is written out unchanged. -/
theorem doPrintf_of_no_percent (l : List Char) (fuel : Nat) (hfuel : l.length ≤ fuel)
    (h : '%' ∉ l) : doPrintf fuel l = l := by
  induction l generalizing fuel with
  | nil => cases fuel <;> rfl
  | cons c cs ih =>
    cases fuel with
    | zero => simp at hfuel
    | succ n =>
      have hc : c ≠ '%' := fun hc => h (by rw [hc]; exact List.mem_cons_self _ _)
      have hcs : '%' ∉ cs := fun hcs => h (List.mem_cons_of_mem _ hcs)
      simp only [doPrintf, if_neg hc]
      rw [ih n (by simpa using hfuel) hcs]

theorem fprintf0_of_no_percent (format : String) (h : '%' ∉ format.data) :
    fprintf0 format = format := by
  unfold fprintf0
  rw [doPrintf_of_no_percent format.data format.length (le_refl _) h]

/-- Truncation towards zero of a non-negative rational is its floor. -/
theorem truncQ_eq_floor (x : ℚ) (hx : 0 ≤ x) : truncQ x = ⌊x⌋ := by
  have hnum : 0 ≤ x.num := Rat.num_nonneg.mpr hx
  have hden : (0 : Int) ≤ x.den := by positivity
  unfold truncQ
  rw [Rat.floor_def, Int.tdiv_eq_ediv hnum hden]

/-- The duration line 129 passes to `time.Sleep` for a delay of `d` seconds, as long as the
whole seconds of `d` fit in an `int64` of nanoseconds: the whole seconds of `d`, the fraction
being dropped. -/
theorem sleepDuration_eq_floor (ovf : ℚ → Int) (d : ℚ) (hd : 0 ≤ d)
    (hsmall : ⌊d⌋ ≤ 9223372036) : sleepDuration ovf d = ⌊d⌋ * 1000000000 := by
  have hfl : 0 ≤ ⌊d⌋ := Int.floor_nonneg.mpr hd
  unfold sleepDuration float64ToInt64
  rw [truncQ_eq_floor d hd]
  have hin : -(2 : Int) ^ 63 ≤ ⌊d⌋ ∧ ⌊d⌋ < 2 ^ 63 := by
    constructor
    · have : -(2 : Int) ^ 63 ≤ 0 := by norm_num
      omega
    · have : (9223372036 : Int) < 2 ^ 63 := by norm_num
      omega
  rw [if_pos hin]
  unfold wrapInt64 Second
  norm_num
  omega

/-! ## Lemmas on the shutdown coordinator -/

theorem countdown_of_le (td : Int) (h1 : -9223372036 ≤ td) (h2 : td ≤ 9223372036) :
    countdown td = td * 1000000000 := by
  unfold countdown wrapInt64 Second
  norm_num
  omega

/-- Every step extends the trace; what it appends depends on the phase and on the event. -/
theorem step_trace (td : Int) (s s' : Coordinator) (e : Event) (h : step td s e = some s') :
    ∃ added, s'.trace = s.trace ++ added ∧
      (∀ t, Action.shutdown t ∈ added → t = shutdownTimeout ∧ s.phase = Phase.draining) ∧
      (Action.closeDone ∈ added → s.phase = Phase.shuttingDown) := by
  unfold step at h
  split at h
  · split at h <;> cases h <;> exact ⟨_, List.append_assoc _ _ _, by simp, by simp⟩
  · rename_i hph
    cases h
    exact ⟨_, rfl, by simp [hph], by simp⟩
  · rename_i hph
    cases h
    exact ⟨_, rfl, by simp [hph], by simp⟩
  · rename_i hph
    cases h
    exact ⟨_, rfl, by simp, by simp [hph]⟩
  · cases h
    exact ⟨_, rfl, by simp, by simp⟩
  · cases h

theorem run_trace (td : Int) (events : List Event) (s0 s : Coordinator)
    (h : run td s0 events = some s) : ∃ added, s.trace = s0.trace ++ added := by
  induction events generalizing s0 with
  | nil =>
    simp only [run, Option.some.injEq] at h
    exact ⟨[], by rw [h, List.append_nil]⟩
  | cons e es ih =>
    simp only [run] at h
    cases hs : step td s0 e with
    | none => rw [hs] at h; cases h
    | some s1 =>
      rw [hs] at h
      obtain ⟨a1, ha1, _⟩ := step_trace td s0 s1 e hs
      obtain ⟨a2, ha2⟩ := ih s1 h
      exact ⟨a1 ++ a2, by rw [ha2, ha1, List.append_assoc]⟩

theorem run_shutdown_timeout (td : Int) (events : List Event) (s0 s : Coordinator)
    (h : run td s0 events = some s)
    (h0 : ∀ t, Action.shutdown t ∈ s0.trace → t = shutdownTimeout) :
    ∀ t, Action.shutdown t ∈ s.trace → t = shutdownTimeout := by
  induction events generalizing s0 with
  | nil =>
    simp only [run, Option.some.injEq] at h
    rw [← h]; exact h0
  | cons e es ih =>
    simp only [run] at h
    cases hs : step td s0 e with
    | none => rw [hs] at h; cases h
    | some s1 =>
      rw [hs] at h
      obtain ⟨a1, ha1, hsh, _⟩ := step_trace td s0 s1 e hs
      refine ih s1 h (fun t ht => ?_)
      rw [ha1, List.mem_append] at ht
      rcases ht with ht | ht
      · exact h0 t ht
      · exact (hsh t ht).1

/-- The first step: only a signal can be received, and the goroutine either panics in
`time.NewTicker` or starts the countdown. -/
theorem step_init (td : Int) (e : Event) (s1 : Coordinator)
    (h : step td Coordinator.init e = some s1) :
    ∃ sig, e = Event.signal sig ∧
      ((countdown td ≤ 0 ∧ s1.phase = Phase.panicked ∧
          s1.trace = [ Action.setKeepAlivesEnabled false,
            Action.log ("Signal " ++ sig.text ++ " caught. Shutting down in " ++
              toString td ++ "s"),
            Action.tickerPanics "non-positive interval for NewTicker" ]) ∨
        (0 < countdown td ∧ s1.phase = Phase.draining ∧
          s1.trace = [ Action.setKeepAlivesEnabled false,
            Action.log ("Signal " ++ sig.text ++ " caught. Shutting down in " ++
              toString td ++ "s"),
            Action.newTicker (countdown td) ])) := by
  cases e with
  | signal sig =>
    refine ⟨sig, rfl, ?_⟩
    simp only [step, Coordinator.init] at h
    split at h
    · rename_i hc
      cases h
      exact Or.inl ⟨hc, rfl, rfl⟩
    · rename_i hc
      cases h
      exact Or.inr ⟨not_le.mp hc, rfl, rfl⟩
  | countdownElapsed => simp [step, Coordinator.init] at h
  | shutdownReturned err => simp [step, Coordinator.init] at h

theorem step_panicked (td : Int) (s : Coordinator) (e : Event)
    (hph : s.phase = Phase.panicked) : step td s e = none := by
  unfold step
  split <;> simp_all

theorem step_draining (td : Int) (s s' : Coordinator) (e : Event)
    (hph : s.phase = Phase.draining) (h : step td s e = some s') :
    ((∃ sig, e = Event.signal sig) ∧ s'.trace = s.trace ++
        [Action.log "Second signal caught. Shutting down NOW",
          Action.shutdown shutdownTimeout] ∨
      e = Event.countdownElapsed ∧ s'.trace = s.trace ++ [Action.shutdown shutdownTimeout]) ∧
    s'.phase = Phase.shuttingDown := by
  unfold step at h
  split at h
  · simp_all
  · cases h
    exact ⟨Or.inl ⟨⟨_, rfl⟩, rfl⟩, rfl⟩
  · cases h
    exact ⟨Or.inr ⟨rfl, rfl⟩, rfl⟩
  · simp_all
  · simp_all
  · cases h

/-! ## The claims on the shutdown coordinator -/

/-- C7 fails beyond the range in which the delay fits in an `int64` of nanoseconds: with the
termination delay 18446744074 the countdown created on line 63 lasts 290448384 nanoseconds,
less than a third of a second, and its tick makes the coordinator invoke `server.Shutdown`
without any second signal, long before 18446744074 seconds have elapsed. -/
theorem shutdown_before_termination_delay :
    countdown 18446744074 = 290448384 ∧
    countdown 18446744074 < 1 * Second ∧
    run 18446744074 Coordinator.init [Event.signal Signal.SIGTERM, Event.countdownElapsed]
      = some
      { phase := Phase.shuttingDown,
        trace := [ Action.setKeepAlivesEnabled false,
          Action.log "Signal terminated caught. Shutting down in 18446744074s",
          Action.newTicker 290448384,
          Action.shutdown 30000000000 ] } := by
  refine ⟨by decide, by decide, by decide⟩

/-- C7, amended: for every termination delay from -9223372036 to 9223372036 seconds, in every
run of the coordinator over the values it receives (first signal, countdown elapsed, second
signal, result of `server.Shutdown`): if `server.Shutdown` has been invoked, then the delay is
positive, the first signal was followed by the creation of a countdown of exactly that many
seconds, and the run went on with either the tick of that countdown or a second signal; every
invocation of `server.Shutdown` carries the timeout of 30 seconds; and while the countdown
runs, a second signal makes the very next step invoke `server.Shutdown`, by the same call as
the tick of the countdown does. -/
theorem shutdown_after_countdown_or_second_signal (td : Int) (events : List Event)
    (s : Coordinator) (hlo : -9223372036 ≤ td) (hhi : td ≤ 9223372036)
    (hrun : run td Coordinator.init events = some s) :
    (shutdownInvoked s →
      0 < td ∧
      ∃ sig e rest later, events = Event.signal sig :: e :: rest ∧
        (e = Event.countdownElapsed ∨ ∃ sig2, e = Event.signal sig2) ∧
        s.trace =
          [ Action.setKeepAlivesEnabled false,
            Action.log ("Signal " ++ sig.text ++ " caught. Shutting down in " ++
              toString td ++ "s"),
            Action.newTicker (td * 1000000000) ] ++ later) ∧
    (∀ t, Action.shutdown t ∈ s.trace → t = 30 * 1000000000) ∧
    (s.phase = Phase.draining →
      (∀ sig2, step td s (Event.signal sig2) = some
        { phase := Phase.shuttingDown,
          trace := s.trace ++ [ Action.log "Second signal caught. Shutting down NOW",
            Action.shutdown (30 * 1000000000) ] }) ∧
      step td s Event.countdownElapsed = some
        { phase := Phase.shuttingDown,
          trace := s.trace ++ [Action.shutdown (30 * 1000000000)] }) := by
  have hc : countdown td = td * 1000000000 := countdown_of_le td hlo hhi
  refine ⟨?_, ?_, ?_⟩
  · rintro ⟨t, ht⟩
    cases events with
    | nil =>
      simp only [run, Option.some.injEq] at hrun
      rw [← hrun] at ht
      simp [Coordinator.init] at ht
    | cons e1 rest1 =>
      simp only [run] at hrun
      cases hs1 : step td Coordinator.init e1 with
      | none => rw [hs1] at hrun; cases hrun
      | some s1 =>
        rw [hs1] at hrun
        obtain ⟨sig, he1, hcase⟩ := step_init td e1 s1 hs1
        cases rest1 with
        | nil =>
          simp only [run, Option.some.injEq] at hrun
          rw [← hrun] at ht
          rcases hcase with ⟨_, _, htr⟩ | ⟨_, _, htr⟩ <;> rw [htr] at ht <;> simp at ht
        | cons e2 rest2 =>
          rcases hcase with ⟨_, hph, _⟩ | ⟨hpos, hph, htr⟩
          · simp only [run, step_panicked td s1 e2 hph] at hrun
            cases hrun
          · simp only [run] at hrun
            cases hs2 : step td s1 e2 with
            | none => rw [hs2] at hrun; cases hrun
            | some s2 =>
              rw [hs2] at hrun
              obtain ⟨hev, _⟩ := step_draining td s1 s2 e2 hph hs2
              obtain ⟨a1, ha1, _⟩ := step_trace td s1 s2 e2 hs2
              obtain ⟨a2, ha2⟩ := run_trace td rest2 s2 s hrun
              rw [hc] at hpos htr
              refine ⟨by omega, sig, e2, rest2, a1 ++ a2, by rw [he1], ?_, ?_⟩
              · rcases hev with ⟨⟨sig2, h2⟩, _⟩ | ⟨h2, _⟩
                · exact Or.inr ⟨sig2, h2⟩
                · exact Or.inl h2
              · rw [ha2, ha1, htr, List.append_assoc]
  · intro t ht
    have := run_shutdown_timeout td events Coordinator.init s hrun
      (by simp [Coordinator.init]) t ht
    rw [this]; rfl
  · intro hph
    refine ⟨fun sig2 => ?_, ?_⟩
    · simp [step, hph, shutdownTimeout, Second]
    · simp [step, hph, shutdownTimeout, Second]

theorem shutdown_after_countdown_or_second_signal_witness :
    ((-9223372036 : Int) ≤ 10 ∧ (10 : Int) ≤ 9223372036 ∧
      run 10 Coordinator.init [Event.signal Signal.SIGTERM, Event.signal Signal.SIGINT] = some
        { phase := Phase.shuttingDown,
          trace := [ Action.setKeepAlivesEnabled false,
            Action.log "Signal terminated caught. Shutting down in 10s",
            Action.newTicker 10000000000,
            Action.log "Second signal caught. Shutting down NOW",
            Action.shutdown 30000000000 ] }) ∧
    ((0 : Int) < 10 ∧
      ∃ sig e rest later,
        [Event.signal Signal.SIGTERM, Event.signal Signal.SIGINT]
          = Event.signal sig :: e :: rest ∧
        (e = Event.countdownElapsed ∨ ∃ sig2, e = Event.signal sig2) ∧
        [ Action.setKeepAlivesEnabled false,
          Action.log "Signal terminated caught. Shutting down in 10s",
          Action.newTicker 10000000000,
          Action.log "Second signal caught. Shutting down NOW",
          Action.shutdown 30000000000 ] =
          [ Action.setKeepAlivesEnabled false,
            Action.log ("Signal " ++ sig.text ++ " caught. Shutting down in " ++
              toString (10 : Int) ++ "s"),
            Action.newTicker (10 * 1000000000) ] ++ later) ∧
    (run 10 Coordinator.init [Event.signal Signal.SIGTERM] = some
        { phase := Phase.draining,
          trace := [ Action.setKeepAlivesEnabled false,
            Action.log "Signal terminated caught. Shutting down in 10s",
            Action.newTicker 10000000000 ] }) ∧
    step 10
        { phase := Phase.draining,
          trace := [ Action.setKeepAlivesEnabled false,
            Action.log "Signal terminated caught. Shutting down in 10s",
            Action.newTicker 10000000000 ] }
        (Event.signal Signal.SIGINT) = some
      { phase := Phase.shuttingDown,
        trace := [ Action.setKeepAlivesEnabled false,
            Action.log "Signal terminated caught. Shutting down in 10s",
            Action.newTicker 10000000000 ] ++
          [ Action.log "Second signal caught. Shutting down NOW",
            Action.shutdown (30 * 1000000000) ] } :=
  ⟨⟨by decide, by decide, by decide⟩,
    (shutdown_after_countdown_or_second_signal 10
      [Event.signal Signal.SIGTERM, Event.signal Signal.SIGINT]
      { phase := Phase.shuttingDown,
        trace := [ Action.setKeepAlivesEnabled false,
          Action.log "Signal terminated caught. Shutting down in 10s",
          Action.newTicker 10000000000,
          Action.log "Second signal caught. Shutting down NOW",
          Action.shutdown 30000000000 ] } (by decide) (by decide) (by decide)).1
      ⟨30000000000, by decide⟩,
    by decide,
    ((shutdown_after_countdown_or_second_signal 10 [Event.signal Signal.SIGTERM]
      { phase := Phase.draining,
        trace := [ Action.setKeepAlivesEnabled false,
          Action.log "Signal terminated caught. Shutting down in 10s",
          Action.newTicker 10000000000 ] } (by decide) (by decide) (by decide)).2.2 rfl).1
      Signal.SIGINT⟩

/-- C10 fails at the ends of the range of the flag: the termination delay 9223372037 is at
least 1, yet its duration in nanoseconds wraps to a negative `int64`, `time.NewTicker` panics
and `server.Shutdown` is never reached; the termination delay -9223372037 is negative, yet its
duration wraps to a positive one, the countdown is created and `server.Shutdown` is invoked. -/
theorem countdown_wraps_around :
    countdown 9223372037 = -9223372036709551616 ∧
    run 9223372037 Coordinator.init [Event.signal Signal.SIGTERM] = some
      { phase := Phase.panicked,
        trace := [ Action.setKeepAlivesEnabled false,
          Action.log "Signal terminated caught. Shutting down in 9223372037s",
          Action.tickerPanics "non-positive interval for NewTicker" ] } ∧
    run 9223372037 Coordinator.init [Event.signal Signal.SIGTERM, Event.countdownElapsed]
      = none ∧
    run 9223372037 Coordinator.init
      [Event.signal Signal.SIGTERM, Event.signal Signal.SIGTERM] = none ∧
    run (-9223372037) Coordinator.init [Event.signal Signal.SIGTERM, Event.countdownElapsed]
      = some
      { phase := Phase.shuttingDown,
        trace := [ Action.setKeepAlivesEnabled false,
          Action.log "Signal terminated caught. Shutting down in -9223372037s",
          Action.newTicker 9223372036709551616,
          Action.shutdown 30000000000 ] } := by
  refine ⟨by decide, by decide, by decide, by decide, by decide⟩

/-- C10, amended: for every termination delay from 1 to 9223372036 seconds the first signal
makes the coordinator create the countdown with `time.NewTicker` on exactly that many seconds,
and the tick of the countdown or a second signal then makes it invoke `server.Shutdown`; for
every termination delay from -9223372036 to 0 the first signal makes `time.NewTicker` panic,
and in no run does the coordinator invoke `server.Shutdown` or close `done`. -/
theorem countdown_created_or_panics (td : Int) (sig : Signal) :
    (1 ≤ td → td ≤ 9223372036 →
      (∃ s1, run td Coordinator.init [Event.signal sig] = some s1 ∧
        s1.phase = Phase.draining ∧ Action.newTicker (td * 1000000000) ∈ s1.trace) ∧
      (∃ s2, run td Coordinator.init [Event.signal sig, Event.countdownElapsed] = some s2 ∧
        Action.shutdown (30 * 1000000000) ∈ s2.trace) ∧
      (∀ sig2, ∃ s2, run td Coordinator.init [Event.signal sig, Event.signal sig2] = some s2 ∧
        Action.shutdown (30 * 1000000000) ∈ s2.trace)) ∧
    (-9223372036 ≤ td → td ≤ 0 →
      (∃ s1, run td Coordinator.init [Event.signal sig] = some s1 ∧
        s1.phase = Phase.panicked ∧
        Action.tickerPanics "non-positive interval for NewTicker" ∈ s1.trace) ∧
      (∀ events s, run td Coordinator.init events = some s →
        ¬ shutdownInvoked s ∧ Action.closeDone ∉ s.trace)) := by
  refine ⟨fun h1 h2 => ?_, fun h1 h2 => ?_⟩
  · have hc : countdown td = td * 1000000000 := countdown_of_le td (by omega) h2
    have hpos : ¬ (countdown td ≤ 0) := by rw [hc]; omega
    refine ⟨?_, ?_, fun sig2 => ?_⟩
    · refine ⟨_, by simp only [run, step, Coordinator.init, if_neg hpos]; rfl, by rfl, ?_⟩
      simp [hc]
    · refine ⟨_, by simp only [run, step, Coordinator.init, if_neg hpos]; rfl, ?_⟩
      simp [shutdownTimeout, Second]
    · refine ⟨_, by simp only [run, step, Coordinator.init, if_neg hpos]; rfl, ?_⟩
      simp [shutdownTimeout, Second]
  · have hc : countdown td = td * 1000000000 := countdown_of_le td h1 (by omega)
    have hneg : countdown td ≤ 0 := by rw [hc]; omega
    refine ⟨⟨_, by simp only [run, step, Coordinator.init, if_pos hneg]; rfl, by rfl,
      by simp⟩, ?_⟩
    intro events s hrun
    cases events with
    | nil =>
      simp only [run, Option.some.injEq] at hrun
      rw [← hrun]
      simp [shutdownInvoked, Coordinator.init]
    | cons e1 rest1 =>
      simp only [run] at hrun
      cases hs1 : step td Coordinator.init e1 with
      | none => rw [hs1] at hrun; cases hrun
      | some s1 =>
        rw [hs1] at hrun
        obtain ⟨sig1, _, hcase⟩ := step_init td e1 s1 hs1
        rcases hcase with ⟨_, hph, htr⟩ | ⟨hpos, _, _⟩
        · cases rest1 with
          | nil =>
            simp only [run, Option.some.injEq] at hrun
            rw [← hrun]
            simp [shutdownInvoked, htr]
          | cons e2 rest2 =>
            simp only [run, step_panicked td s1 e2 hph] at hrun
            cases hrun
        · omega

theorem countdown_created_or_panics_witness :
    ((1 : Int) ≤ 10 ∧ (10 : Int) ≤ 9223372036 ∧ (-9223372036 : Int) ≤ 0 ∧ (0 : Int) ≤ 0) ∧
    (∃ s2, run 10 Coordinator.init [Event.signal Signal.SIGINT, Event.countdownElapsed]
        = some s2 ∧ Action.shutdown (30 * 1000000000) ∈ s2.trace) ∧
    (∃ s1, run 0 Coordinator.init [Event.signal Signal.SIGINT] = some s1 ∧
      s1.phase = Phase.panicked ∧
      Action.tickerPanics "non-positive interval for NewTicker" ∈ s1.trace) :=
  ⟨⟨by decide, by decide, by decide, by decide⟩,
    ((countdown_created_or_panics 10 Signal.SIGINT).1 (by decide) (by decide)).2.1,
    ((countdown_created_or_panics 0 Signal.SIGINT).2 (by decide) (by decide)).1⟩

/-- A complete graceful run with the default termination delay. -/
theorem run_graceful :
    run defaultTerminationDelay Coordinator.init
      [Event.signal Signal.SIGTERM, Event.countdownElapsed, Event.shutdownReturned none] = some
      { phase := Phase.returned,
        trace := [ Action.setKeepAlivesEnabled false,
          Action.log "Signal terminated caught. Shutting down in 10s",
          Action.newTicker 10000000000, Action.shutdown 30000000000,
          Action.closeDone, Action.cancel, Action.tickerStop ] } := by
  decide

end RolloutsDemo
